import Mathlib

/-
Verification of the filesystem-backed upload store (`lib/stores/FileStore.js`)
against its design specification.

The store keeps, per upload identifier `id`, a data artifact at
`<directory>/<id>` and a metadata artifact at `<directory>/<id>.info`, and
exposes three operations: `create`, `write` and `getOffset`.  Each operation
is embedded below as a pure function over an explicit filesystem state;
asynchronous I/O failures of the underlying runtime are injected as explicit
fault parameters, and the injected collaborators (the identifier generator
and the SHA-1 digest of the crypto library) are function parameters.
-/

namespace FileStore

/-- A raw runtime I/O error object, identified by its `code` property
(for example `"ENOENT"`), as dispatched on in `getOffset`. -/
structure IOErr where
  code : String
deriving DecidableEq, Repr

/-- Modelled from the spec: the error taxonomy.  The constants module
(`lib/constants.js`) is not part of the studied sources; the constructor
names follow the `ERRORS.*` constants referenced by `FileStore.js`, and
`raw` is the passthrough of an underlying runtime error object, which is
distinct from every named constant. -/
inductive Err where
  | INVALID_LENGTH
  | FILE_WRITE_ERROR
  | CHECKSUM_ALGORITHM_UNSUPPORTED
  | CHECKSUM_MISMATCH
  | FILE_NOT_FOUND
  | FILE_NO_LONGER_EXISTS
  | raw (e : IOErr)
deriving DecidableEq, Repr

/-- Modelled from the spec: the `UploadRecord` (`lib/models/File.js` is not
part of the studied sources).  `create` builds it as
`new File(file_id, upload_length, upload_defer_length, upload_metadata)`,
storing the three header values verbatim; `write` reads back its
`upload_length` field. -/
structure File where
  id : String
  upload_length : Option String
  upload_defer_length : Option String
  upload_metadata : Option String
deriving DecidableEq, Repr

/-- One filesystem entry.  A data artifact holds raw bytes; a metadata
artifact either holds a serialised `File` record (`info`) or bytes that
`JSON.parse` cannot turn into one (`infoBad`); `dir` is a directory. -/
inductive FsEntry where
  | data (bytes : List Nat)
  | info (f : File)
  | infoBad
  | dir
deriving DecidableEq, Repr

/-- The filesystem: a map from path to entry. -/
def FS := String → Option FsEntry

/-- Create or overwrite the entry at path `p`. -/
def FS.set (fs : FS) (p : String) (e : FsEntry) : FS :=
  fun q => if q = p then some e else fs q

/-- Remove the entry at path `p` (`fs.unlink`). -/
def FS.del (fs : FS) (p : String) : FS :=
  fun q => if q = p then none else fs q

/-- The empty filesystem. -/
def FS.empty : FS := fun _ => none

/-- `filePath`: the data artifact path `` `${this.directory}/${file_id}` ``. -/
def filePath (dir file_id : String) : String :=
  dir ++ "/" ++ file_id

/-- `infoPath`: the metadata artifact path
`` `${this.directory}/${file_id}.info` ``. -/
def infoPath (dir file_id : String) : String :=
  filePath dir file_id ++ ".info"

/-- The staging path `` `${path}.tmp` `` used by `write`. -/
def tempPath (dir file_id : String) : String :=
  filePath dir file_id ++ ".tmp"

/-- `getFileInfo`: read and parse the metadata artifact, returning the
`File` record, or `none` when the artifact is absent or unparsable (the
source catches every read/parse failure and returns `null`). -/
def getFileInfo (dir : String) (fs : FS) (file_id : String) : Option File :=
  match fs (infoPath dir file_id) with
  | some (.info f) => some f
  | _ => none

/-- `writeFileInfo`: serialise the record and atomically replace the
metadata artifact (`write-file-atomic`). -/
def writeFileInfo (dir : String) (fs : FS) (f : File) : FS :=
  fs.set (infoPath dir f.id) (.info f)

/-- JavaScript `s.split(' ')` on the character list: split at every single
space, keeping empty segments; the result is always non-empty. -/
def jsSplitSpaceChars : List Char → List (List Char)
  | [] => [[]]
  | c :: rest =>
    match jsSplitSpaceChars rest with
    | [] => []
    | seg :: segs => if c = ' ' then [] :: seg :: segs else (c :: seg) :: segs

/-- JavaScript `s.split(' ')`. -/
def jsSplitSpace (s : String) : List String :=
  (jsSplitSpaceChars s.toList).map String.mk

/-- JavaScript `parseInt(s, 10)` on the fragment exercised here: the longest
leading run of decimal digits, or `none` (`NaN`) when the string does not
begin with a digit.  Signs and leading whitespace are not modelled. -/
def jsParseInt10 (s : String) : Option Nat :=
  let ds := s.toList.takeWhile Char.isDigit
  if ds.isEmpty then none
  else some (ds.foldl (fun n c => 10 * n + (c.toNat - 48)) 0)

/-- Injected faults for the three runtime I/O callbacks of `create`:
`fs.open`, `writeFileInfo`, and `fs.close`.  `some e` makes the
corresponding callback fail with the raw error `e`. -/
structure CreateFaults where
  openErr : Option IOErr
  infoErr : Option IOErr
  closeErr : Option IOErr

/-- No injected faults. -/
def CreateFaults.noFault : CreateFaults := ⟨none, none, none⟩

/-- Result of `create`: the settled promise value, the filesystem after the
call, and whether the `EVENT_FILE_CREATED` notification was emitted. -/
structure CreateResult where
  res : Except Err File
  fs : FS
  emittedCreated : Bool

/-- `create`: reject `INVALID_LENGTH` when both the `upload-length` and
`upload-defer-length` headers are absent; obtain a fresh identifier from
the injected generator (`gen`), rejecting `FILE_WRITE_ERROR` if it throws;
open (create/truncate) the empty data artifact; persist the metadata
record; close the handle; each I/O failure rejects with the raw error. -/
def create (dir : String) (fs : FS) (gen : Except IOErr String)
    (faults : CreateFaults)
    (upload_length upload_defer_length upload_metadata : Option String) :
    CreateResult :=
  if upload_length = none ∧ upload_defer_length = none then
    ⟨.error .INVALID_LENGTH, fs, false⟩
  else
    match gen with
    | .error _ => ⟨.error .FILE_WRITE_ERROR, fs, false⟩
    | .ok file_id =>
      let file : File := ⟨file_id, upload_length, upload_defer_length, upload_metadata⟩
      let filepath := filePath dir file_id
      match faults.openErr with
      | some e => ⟨.error (.raw e), fs, false⟩
      | none =>
        let fs1 := fs.set filepath (.data [])
        match faults.infoErr with
        | some e => ⟨.error (.raw e), fs1, false⟩
        | none =>
          let fs2 := writeFileInfo dir fs1 file
          match faults.closeErr with
          | some e => ⟨.error (.raw e), fs2, false⟩
          | none => ⟨.ok file, fs2, true⟩

/-- The verification phase of `write`: with no `upload-checksum` header the
chunk is accepted; otherwise the header splits on spaces into the algorithm
(`[0]`) and the declared digest (`[1]`); an algorithm other than `"sha1"`
rejects `CHECKSUM_ALGORITHM_UNSUPPORTED`, and a declared digest different
from the digest of the staged bytes rejects `CHECKSUM_MISMATCH`. -/
def checksumVerify (sha1d : List Nat → String) (staged : List Nat) :
    Option String → Option Err
  | none => none
  | some header =>
    let parts := jsSplitSpace header
    if parts[0]? ≠ some "sha1" then some .CHECKSUM_ALGORITHM_UNSUPPORTED
    else if parts[1]? ≠ some (sha1d staged) then some .CHECKSUM_MISMATCH
    else none

/-- Random-access write of `chunk` into `old` starting at `offset`
(stream flags `r+` with `start: offset`): bytes before the offset are kept,
a gap beyond the end of the file reads back as zeros, and bytes after the
written range are kept. -/
def overwriteAt (old : List Nat) (offset : Nat) (chunk : List Nat) : List Nat :=
  old.take offset ++ List.replicate (offset - old.length) 0 ++ chunk
    ++ old.drop (offset + chunk.length)

/-- Result of `write`: the settled promise value (the new offset on
success), the filesystem after the call, and whether the
`EVENT_UPLOAD_COMPLETE` notification was emitted. -/
structure WriteResult where
  res : Except Err Nat
  fs : FS
  emittedComplete : Bool

/-- `write`: stage the request body into `<path>.tmp` while counting the
bytes received; verify the optional checksum declaration against the staged
bytes; commit by opening the data artifact with `r+` and writing the staged
bytes at the supplied offset (a missing or non-regular target makes the
stream error and rejects `FILE_WRITE_ERROR`); unlink the staging artifact;
re-read the metadata record and emit `EVENT_UPLOAD_COMPLETE` when
`parseInt(upload_length, 10)` equals the new offset; resolve with the new
offset. -/
def write (dir : String) (fs : FS) (sha1d : List Nat → String)
    (file_id : String) (offset : Nat) (body : List Nat)
    (upload_checksum : Option String) : WriteResult :=
  let path := filePath dir file_id
  let tempchunkpath := path ++ ".tmp"
  let fs1 := fs.set tempchunkpath (.data body)
  match checksumVerify sha1d body upload_checksum with
  | some e => ⟨.error e, fs1, false⟩
  | none =>
    match fs1 path with
    | some (.data old) =>
      let new_offset := offset + body.length
      let fs2 := (fs1.set path (.data (overwriteAt old offset body))).del tempchunkpath
      let emit :=
        match getFileInfo dir fs2 file_id with
        | some f => decide (f.upload_length.bind jsParseInt10 = some new_offset)
        | none => false
      ⟨.ok new_offset, fs2, emit⟩
    | _ => ⟨.error .FILE_WRITE_ERROR, fs1, false⟩

/-- The filesystem status of an entry: its size and whether it is a
directory. -/
structure Stats where
  size : Nat
  isDirectory : Bool
deriving DecidableEq, Repr

/-- `fs.stat` view of an entry. -/
def statsOf : FsEntry → Stats
  | .data bs => ⟨bs.length, false⟩
  | .info _ => ⟨0, false⟩
  | .infoBad => ⟨0, false⟩
  | .dir => ⟨0, true⟩

/-- The merged view resolved by `getOffset` (`Object.assign(stats, config)`):
the status size together with the metadata record when one was readable. -/
structure GetOffsetResult where
  size : Nat
  config : Option File
deriving DecidableEq, Repr

/-- `getOffset`: read the metadata record, then `stat` the data artifact
(`statFault` injects a runtime status failure); an `ENOENT` failure rejects
`FILE_NO_LONGER_EXISTS` when a metadata record exists and `FILE_NOT_FOUND`
otherwise; any other status failure is rejected as-is; a directory rejects
`FILE_NOT_FOUND`; otherwise the merged stats/config view is resolved. -/
def getOffset (dir : String) (fs : FS) (statFault : Option IOErr)
    (file_id : String) : Except Err GetOffsetResult :=
  let config := getFileInfo dir fs file_id
  let st : Except IOErr Stats :=
    match statFault with
    | some e => .error e
    | none =>
      match fs (filePath dir file_id) with
      | none => .error ⟨"ENOENT"⟩
      | some ent => .ok (statsOf ent)
  match st with
  | .error e =>
    if e.code = "ENOENT" ∧ config.isSome then .error .FILE_NO_LONGER_EXISTS
    else if e.code = "ENOENT" then .error .FILE_NOT_FOUND
    else .error (.raw e)
  | .ok stats =>
    if stats.isDirectory then .error .FILE_NOT_FOUND
    else .ok ⟨stats.size, config⟩

/-- A stand-in digest function for concrete instantiations of the injected
SHA-1 capability. -/
def demoDigest : List Nat → String :=
  fun bs => "h" ++ String.mk (bs.map (fun n => Char.ofNat (97 + n % 26)))

/-! ### Basic lemmas about the filesystem map and the artifact paths -/

theorem FS.set_self (fs : FS) (p : String) (e : FsEntry) :
    (fs.set p e) p = some e := by
  simp [FS.set]

theorem FS.set_other (fs : FS) (p q : String) (e : FsEntry) (h : q ≠ p) :
    (fs.set p e) q = fs q := by
  simp [FS.set, h]

theorem FS.del_other (fs : FS) (p q : String) (h : q ≠ p) :
    (fs.del p) q = fs q := by
  simp [FS.del, h]

theorem append_ne_of_length_ne (p a b : String) (h : a.length ≠ b.length) :
    p ++ a ≠ p ++ b := by
  intro hEq
  have h2 := congrArg String.length hEq
  rw [String.length_append, String.length_append] at h2
  omega

theorem append_ne_self (p a : String) (h : a.length ≠ 0) : p ++ a ≠ p := by
  intro hEq
  have h2 := congrArg String.length hEq
  rw [String.length_append] at h2
  omega

theorem tempPath_ne_filePath (dir file_id : String) :
    tempPath dir file_id ≠ filePath dir file_id :=
  append_ne_self _ _ (by decide)

theorem infoPath_ne_filePath (dir file_id : String) :
    infoPath dir file_id ≠ filePath dir file_id :=
  append_ne_self _ _ (by decide)

theorem infoPath_ne_tempPath (dir file_id : String) :
    infoPath dir file_id ≠ tempPath dir file_id :=
  append_ne_of_length_ne _ _ _ (by decide)

/-! ### Claims about `create` -/

/-- C5 counterexample: a `create` call supplying BOTH a declared length and
the deferred flag is accepted (it resolves with the record), instead of
being rejected with `INVALID_LENGTH` as the exactly-one precondition would
require. -/
theorem create_accepts_both_counterexample :
    (create "d" FS.empty (.ok "f") CreateFaults.noFault
        (some "5") (some "1") none).res = .ok ⟨"f", some "5", some "1", none⟩ := by
  rfl

/-- C5 (amended): `create` rejects with `INVALID_LENGTH` exactly when
neither the declared length nor the deferred flag is supplied; in
particular, supplying both is accepted rather than rejected. -/
theorem create_invalid_length_iff (dir : String) (fs : FS)
    (gen : Except IOErr String) (faults : CreateFaults)
    (ul udl um : Option String) :
    (create dir fs gen faults ul udl um).res = .error .INVALID_LENGTH ↔
      (ul = none ∧ udl = none) := by
  obtain ⟨o, i, cl⟩ := faults
  unfold create
  split
  · simp_all
  · cases gen with
    | error e => simp_all
    | ok fid =>
      cases o with
      | some e => simp_all
      | none =>
        cases i with
        | some e => simp_all
        | none =>
          cases cl with
          | some e => simp_all
          | none => simp_all

/-- C3 counterexample: when the injected identifier generator fails,
`create` rejects with `FILE_WRITE_ERROR` — the very same error kind that a
failed commit to the data artifact in `write` rejects with — so the
failure is not reported through a distinct identifier-generation error
kind. -/
theorem create_genfail_counterexample :
    (create "d" FS.empty (.error ⟨"boom"⟩) CreateFaults.noFault
        (some "5") none none).res = .error .FILE_WRITE_ERROR
    ∧ (write "d" FS.empty demoDigest "g" 0 [1] none).res
        = .error .FILE_WRITE_ERROR := by
  constructor <;> rfl

/-- C3 (amended): for every `create` call in which the injected
identifier-generation capability fails, `create` fails with the
`FILE_WRITE_ERROR` kind — the storage-write error kind, not a distinct
identifier-generation kind — and the filesystem is left unchanged. -/
theorem create_genfail_error (dir : String) (fs : FS) (faults : CreateFaults)
    (e : IOErr) (ul udl um : Option String)
    (h : ¬(ul = none ∧ udl = none)) :
    (create dir fs (.error e) faults ul udl um).res = .error .FILE_WRITE_ERROR
    ∧ (create dir fs (.error e) faults ul udl um).fs = fs := by
  unfold create
  simp [h]

theorem create_genfail_error_witness :
    (create "d" FS.empty (.error ⟨"x"⟩) CreateFaults.noFault
        (some "5") none none).res = .error .FILE_WRITE_ERROR :=
  (create_genfail_error "d" FS.empty CreateFaults.noFault ⟨"x"⟩
    (some "5") none none (by simp)).1

/-- C4 counterexample: both halves of the claim fail on concrete inputs.
With the data-artifact open failing (raw error `EACCES`), `create` rejects
with the raw underlying error, not with the `FILE_WRITE_ERROR` constant
standing for `StorageWriteError`; and with the metadata-persistence step
failing (raw error `EIO`), a partially-created state IS observable: the
empty data artifact exists while no metadata artifact does. -/
theorem create_io_failure_counterexample :
    ((create "d" FS.empty (.ok "f") ⟨some ⟨"EACCES"⟩, none, none⟩
        (some "5") none none).res = .error (.raw ⟨"EACCES"⟩)
      ∧ (create "d" FS.empty (.ok "f") ⟨some ⟨"EACCES"⟩, none, none⟩
        (some "5") none none).res ≠ .error .FILE_WRITE_ERROR)
    ∧ ((create "d" FS.empty (.ok "f") ⟨none, some ⟨"EIO"⟩, none⟩
        (some "5") none none).res = .error (.raw ⟨"EIO"⟩)
      ∧ (create "d" FS.empty (.ok "f") ⟨none, some ⟨"EIO"⟩, none⟩
        (some "5") none none).fs (filePath "d" "f") = some (.data [])
      ∧ (create "d" FS.empty (.ok "f") ⟨none, some ⟨"EIO"⟩, none⟩
        (some "5") none none).fs (infoPath "d" "f") = none) := by
  refine ⟨⟨rfl, ?_⟩, rfl, rfl, rfl⟩
  intro hc
  rw [show (create "d" FS.empty (.ok "f") ⟨some ⟨"EACCES"⟩, none, none⟩
      (some "5") none none).res = .error (.raw ⟨"EACCES"⟩) from rfl] at hc
  simp at hc

/-- C4 (amended): every I/O failure during data-artifact creation (open or
close) or metadata persistence makes `create` reject with the raw
underlying I/O error — passthrough, not the `FILE_WRITE_ERROR` kind.  An
open failure leaves the filesystem unchanged; a metadata-persistence
failure leaves the already-created empty data artifact observable while
every other path, the metadata artifact's included, is unchanged; a close
failure leaves both fully-written artifacts in place despite the failed
call. -/
theorem create_io_failure_passthrough (dir : String) (fs : FS)
    (file_id : String) (e : IOErr) (iErr cErr : Option IOErr)
    (ul udl um : Option String) (h : ¬(ul = none ∧ udl = none)) :
    ((create dir fs (.ok file_id) ⟨some e, iErr, cErr⟩ ul udl um).res
        = .error (.raw e)
      ∧ (create dir fs (.ok file_id) ⟨some e, iErr, cErr⟩ ul udl um).fs = fs)
    ∧ ((create dir fs (.ok file_id) ⟨none, some e, cErr⟩ ul udl um).res
        = .error (.raw e)
      ∧ (create dir fs (.ok file_id) ⟨none, some e, cErr⟩ ul udl um).fs
        (filePath dir file_id) = some (.data [])
      ∧ ∀ p, p ≠ filePath dir file_id →
        (create dir fs (.ok file_id) ⟨none, some e, cErr⟩ ul udl um).fs p
          = fs p)
    ∧ ((create dir fs (.ok file_id) ⟨none, none, some e⟩ ul udl um).res
        = .error (.raw e)
      ∧ (create dir fs (.ok file_id) ⟨none, none, some e⟩ ul udl um).fs
        (filePath dir file_id) = some (.data [])
      ∧ (create dir fs (.ok file_id) ⟨none, none, some e⟩ ul udl um).fs
        (infoPath dir file_id) = some (.info ⟨file_id, ul, udl, um⟩)) := by
  unfold create
  simp only [h, if_false]
  refine ⟨⟨trivial, trivial⟩,
    ⟨trivial, FS.set_self fs _ _, fun p hp => FS.set_other fs _ _ _ hp⟩,
    trivial, ?_, ?_⟩
  · simp only [writeFileInfo]
    rw [FS.set_other _ _ _ _ (Ne.symm (infoPath_ne_filePath dir file_id))]
    exact FS.set_self fs _ _
  · simp only [writeFileInfo]
    exact FS.set_self _ _ _

theorem create_io_failure_passthrough_witness :
    (create "d" FS.empty (.ok "f") ⟨some ⟨"EPERM"⟩, none, none⟩
        (some "7") none none).res = .error (.raw ⟨"EPERM"⟩)
    ∧ (create "d" FS.empty (.ok "f") ⟨none, some ⟨"EIO2"⟩, none⟩
        (some "7") none none).res = .error (.raw ⟨"EIO2"⟩)
    ∧ (create "d" FS.empty (.ok "f") ⟨none, some ⟨"EIO2"⟩, none⟩
        (some "7") none none).fs (filePath "d" "f") = some (.data [])
    ∧ (create "d" FS.empty (.ok "f") ⟨none, none, some ⟨"EBADF"⟩⟩
        (some "7") none none).res = .error (.raw ⟨"EBADF"⟩) := by
  have h1 := create_io_failure_passthrough "d" FS.empty "f" ⟨"EPERM"⟩ none none
    (some "7") none none (by simp)
  have h2 := create_io_failure_passthrough "d" FS.empty "f" ⟨"EIO2"⟩ none none
    (some "7") none none (by simp)
  have h3 := create_io_failure_passthrough "d" FS.empty "f" ⟨"EBADF"⟩ none none
    (some "7") none none (by simp)
  exact ⟨h1.1.1, h2.2.1.1, h2.2.1.2.1, h3.2.2.1⟩

/-! ### Claims about `getOffset` -/

/-- C6: `getOffset` maps failures in priority order: data artifact absent
with a metadata record present rejects `FILE_NO_LONGER_EXISTS`; absent with
no metadata rejects `FILE_NOT_FOUND`; a directory at the data path rejects
`FILE_NOT_FOUND`; any other status failure is passed through as the raw
error. -/
theorem getOffset_error_mapping (dir : String) (fs : FS) (file_id : String)
    (e : IOErr) :
    (fs (filePath dir file_id) = none →
      (getFileInfo dir fs file_id).isSome = true →
      getOffset dir fs none file_id = .error .FILE_NO_LONGER_EXISTS)
    ∧ (fs (filePath dir file_id) = none →
      getFileInfo dir fs file_id = none →
      getOffset dir fs none file_id = .error .FILE_NOT_FOUND)
    ∧ (fs (filePath dir file_id) = some .dir →
      getOffset dir fs none file_id = .error .FILE_NOT_FOUND)
    ∧ (e.code ≠ "ENOENT" →
      getOffset dir fs (some e) file_id = .error (.raw e)) := by
  refine ⟨fun h1 h2 => ?_, fun h1 h2 => ?_, fun h1 => ?_, fun h1 => ?_⟩
  · simp [getOffset, h1, h2]
  · simp [getOffset, h1, h2]
  · simp [getOffset, h1, statsOf]
  · simp [getOffset, h1]

theorem getOffset_error_mapping_witness :
    getOffset "d" (FS.empty.set (infoPath "d" "f")
        (.info ⟨"f", some "5", none, none⟩)) none "f"
      = .error .FILE_NO_LONGER_EXISTS
    ∧ getOffset "d" FS.empty none "f" = .error .FILE_NOT_FOUND
    ∧ getOffset "d" (FS.empty.set (filePath "d" "f") .dir) none "f"
      = .error .FILE_NOT_FOUND
    ∧ getOffset "d" FS.empty (some ⟨"EACCES"⟩) "f" = .error (.raw ⟨"EACCES"⟩) := by
  refine ⟨?_, ?_, ?_, ?_⟩
  · exact (getOffset_error_mapping "d" _ "f" ⟨"EACCES"⟩).1 rfl rfl
  · exact (getOffset_error_mapping "d" _ "f" ⟨"EACCES"⟩).2.1 rfl rfl
  · exact (getOffset_error_mapping "d" _ "f" ⟨"EACCES"⟩).2.2.1 rfl
  · exact (getOffset_error_mapping "d" _ "f" ⟨"EACCES"⟩).2.2.2 (by decide)

/-- C10: when the data artifact exists as a regular file and the metadata
record is absent or unparsable, `getOffset` succeeds anyway, resolving the
artifact's size with no metadata fields attached. -/
theorem getOffset_no_metadata_ok (dir : String) (fs : FS) (file_id : String)
    (bs : List Nat)
    (hd : fs (filePath dir file_id) = some (.data bs))
    (hi : getFileInfo dir fs file_id = none) :
    getOffset dir fs none file_id = .ok ⟨bs.length, none⟩ := by
  simp [getOffset, hd, hi, statsOf]

theorem getOffset_no_metadata_ok_witness :
    getOffset "d" ((FS.empty.set (filePath "d" "f") (.data [1, 2])).set
        (infoPath "d" "f") .infoBad) none "f" = .ok ⟨2, none⟩ :=
  getOffset_no_metadata_ok "d" _ "f" [1, 2] rfl rfl

/-! ### Claims about `write` -/

/-- Frame property of `write`: whatever branch is taken, only the data
artifact path and the staging path of the written upload can change. -/
theorem write_frame (dir : String) (fs : FS) (sha1d : List Nat → String)
    (file_id : String) (offset : Nat) (body : List Nat) (cs : Option String)
    (q : String) (hq1 : q ≠ filePath dir file_id)
    (hq2 : q ≠ tempPath dir file_id) :
    (write dir fs sha1d file_id offset body cs).fs q = fs q := by
  have hq2' : q ≠ filePath dir file_id ++ ".tmp" := hq2
  unfold write
  cases hv : checksumVerify sha1d body cs with
  | some e =>
    simp only
    exact FS.set_other fs _ _ _ hq2'
  | none =>
    simp only
    cases hfs : (fs.set (filePath dir file_id ++ ".tmp") (.data body))
        (filePath dir file_id) with
    | none =>
      simp only
      exact FS.set_other fs _ _ _ hq2'
    | some ent =>
      cases ent with
      | data old =>
        simp only
        rw [FS.del_other _ _ _ hq2', FS.set_other _ _ _ _ hq1,
          FS.set_other _ _ _ _ hq2']
      | info f =>
        simp only
        exact FS.set_other fs _ _ _ hq2'
      | infoBad =>
        simp only
        exact FS.set_other fs _ _ _ hq2'
      | dir =>
        simp only
        exact FS.set_other fs _ _ _ hq2'

/-- A base filesystem holding one upload's empty data artifact. -/
def baseFS : FS := FS.empty.set (filePath "d" "f") (.data [])

/-- C7: every successful `write` resolves with the new offset — the
supplied starting offset plus the number of bytes received from the byte
source. -/
theorem write_resolves_new_offset (dir : String) (fs : FS)
    (sha1d : List Nat → String) (file_id : String) (offset : Nat)
    (body : List Nat) (cs : Option String) (n : Nat)
    (h : (write dir fs sha1d file_id offset body cs).res = .ok n) :
    n = offset + body.length := by
  unfold write at h
  simp only [] at h
  cases hv : checksumVerify sha1d body cs with
  | some e => rw [hv] at h; simp at h
  | none =>
    rw [hv] at h
    simp only [] at h
    cases hfs : (fs.set (filePath dir file_id ++ ".tmp") (.data body))
        (filePath dir file_id) with
    | none => rw [hfs] at h; simp at h
    | some ent =>
      rw [hfs] at h
      cases ent with
      | data old => simp at h; omega
      | info f => simp at h
      | infoBad => simp at h
      | dir => simp at h

theorem write_resolves_new_offset_witness :
    (write "d" baseFS demoDigest "f" 0 [97, 98, 99]
        (some ("sha1 " ++ demoDigest [97, 98, 99]))).res = .ok 3
    ∧ (3 : Nat) = 0 + [97, 98, 99].length
    ∧ (write "d" baseFS demoDigest "f" 0 [97, 98, 99]
        (some ("sha1 " ++ demoDigest [97, 98, 99]))).fs (filePath "d" "f")
        = some (.data [97, 98, 99]) := by
  refine ⟨rfl, ?_, rfl⟩
  exact write_resolves_new_offset "d" baseFS demoDigest "f" 0 [97, 98, 99]
    (some ("sha1 " ++ demoDigest [97, 98, 99])) 3 rfl

/-- C8: a checksum declaration naming any algorithm other than `"sha1"`
makes `write` fail with `CHECKSUM_ALGORITHM_UNSUPPORTED` (so never with
`CHECKSUM_MISMATCH`), with a result independent of the digest function —
no digest is computed or compared — and with the primary data artifact
untouched. -/
theorem write_unsupported_algorithm (dir : String) (fs : FS)
    (sha1d sha1e : List Nat → String) (file_id : String) (offset : Nat)
    (body : List Nat) (s : String)
    (h : (jsSplitSpace s)[0]? ≠ some "sha1") :
    (write dir fs sha1d file_id offset body (some s)).res
        = .error .CHECKSUM_ALGORITHM_UNSUPPORTED
    ∧ write dir fs sha1d file_id offset body (some s)
        = write dir fs sha1e file_id offset body (some s)
    ∧ (write dir fs sha1d file_id offset body (some s)).fs
        (filePath dir file_id) = fs (filePath dir file_id) := by
  have hv : ∀ g : List Nat → String,
      checksumVerify g body (some s) = some .CHECKSUM_ALGORITHM_UNSUPPORTED := by
    intro g
    simp [checksumVerify, h]
  refine ⟨?_, ?_, ?_⟩
  · unfold write
    rw [hv sha1d]
  · unfold write
    rw [hv sha1d, hv sha1e]
  · unfold write
    rw [hv sha1d]
    exact FS.set_other fs _ _ _ (Ne.symm (tempPath_ne_filePath dir file_id))

theorem write_unsupported_algorithm_witness :
    (write "d" baseFS demoDigest "f" 0 [1, 2] (some "md5 aaaa")).res
      = .error .CHECKSUM_ALGORITHM_UNSUPPORTED :=
  (write_unsupported_algorithm "d" baseFS demoDigest (fun _ => "") "f" 0
    [1, 2] "md5 aaaa" (by decide)).1

/-- C1 counterexample: a `write` whose declared digest differs from the
digest of the staged bytes does reject `CHECKSUM_MISMATCH` without touching
the primary data artifact, but the staged artifact is NOT discarded: it is
left behind at the staging path. -/
theorem write_mismatch_counterexample :
    (write "d" baseFS demoDigest "f" 0 [1, 2] (some "sha1 nope")).res
        = .error .CHECKSUM_MISMATCH
    ∧ (write "d" baseFS demoDigest "f" 0 [1, 2] (some "sha1 nope")).fs
        (tempPath "d" "f") = some (.data [1, 2]) := by
  constructor <;> rfl

/-- C1 (amended): a `write` whose declared digest differs from the digest
computed over the staged bytes fails with `CHECKSUM_MISMATCH`, the primary
data artifact is left byte-for-byte identical to its pre-call state and no
new offset is resolved; the staged artifact, however, is not discarded —
it remains at the staging path. -/
theorem write_mismatch_leaves_primary (dir : String) (fs : FS)
    (sha1d : List Nat → String) (file_id : String) (offset : Nat)
    (body : List Nat) (s : String)
    (ha : (jsSplitSpace s)[0]? = some "sha1")
    (hd : (jsSplitSpace s)[1]? ≠ some (sha1d body)) :
    (write dir fs sha1d file_id offset body (some s)).res
        = .error .CHECKSUM_MISMATCH
    ∧ (write dir fs sha1d file_id offset body (some s)).fs
        (filePath dir file_id) = fs (filePath dir file_id)
    ∧ (write dir fs sha1d file_id offset body (some s)).fs
        (tempPath dir file_id) = some (.data body) := by
  have hv : checksumVerify sha1d body (some s) = some .CHECKSUM_MISMATCH := by
    simp [checksumVerify, ha, hd]
  refine ⟨?_, ?_, ?_⟩
  · unfold write
    rw [hv]
  · unfold write
    rw [hv]
    exact FS.set_other fs _ _ _ (Ne.symm (tempPath_ne_filePath dir file_id))
  · unfold write
    rw [hv]
    exact FS.set_self fs _ _

theorem write_mismatch_leaves_primary_witness :
    (write "d" baseFS demoDigest "f" 0 [1, 2, 3] (some "sha1 wrong")).res
        = .error .CHECKSUM_MISMATCH
    ∧ (write "d" baseFS demoDigest "f" 0 [1, 2, 3] (some "sha1 wrong")).fs
        (filePath "d" "f") = baseFS (filePath "d" "f") := by
  have h := write_mismatch_leaves_primary "d" baseFS demoDigest "f" 0
    [1, 2, 3] "sha1 wrong" (by decide) (by decide)
  exact ⟨h.1, h.2.1⟩

/-- C9: the metadata artifact is write-once with respect to `write`: a
`write` call, successful or failed, changes no path other than its own
data artifact path and staging path; in particular the metadata artifact
of any upload — whose path, carrying the `.info` suffix, is distinct from
both — is never modified. -/
theorem write_preserves_metadata (dir : String) (fs : FS)
    (sha1d : List Nat → String) (w : String) (offset : Nat)
    (body : List Nat) (cs : Option String) (id : String)
    (h1 : infoPath dir id ≠ filePath dir w)
    (h2 : infoPath dir id ≠ tempPath dir w) :
    (write dir fs sha1d w offset body cs).fs (infoPath dir id)
      = fs (infoPath dir id) :=
  write_frame dir fs sha1d w offset body cs _ h1 h2

theorem write_preserves_metadata_witness :
    (write "d" ((FS.empty.set (filePath "d" "f") (.data [7])).set
        (infoPath "d" "f") (.info ⟨"f", some "2", none, none⟩)) demoDigest
        "f" 1 [8] none).fs (infoPath "d" "f")
      = some (.info ⟨"f", some "2", none, none⟩) := by
  have h := write_preserves_metadata "d" ((FS.empty.set (filePath "d" "f")
    (.data [7])).set (infoPath "d" "f") (.info ⟨"f", some "2", none, none⟩))
    demoDigest "f" 1 [8] none "f" (by decide) (by decide)
  rw [h]
  rfl

/-- A filesystem with a 4-byte data artifact and a metadata record
declaring length 10, as after a create and a first 4-byte write. -/
def fsLen10 : FS :=
  (FS.empty.set (filePath "d" "f") (.data (List.replicate 4 5))).set
    (infoPath "d" "f") (.info ⟨"f", some "10", none, none⟩)

/-- A filesystem with a 10-byte data artifact and a metadata record
declaring length 10, as after an upload has already completed. -/
def fsLen10Full : FS :=
  (FS.empty.set (filePath "d" "g") (.data (List.replicate 10 0))).set
    (infoPath "d" "g") (.info ⟨"g", some "10", none, none⟩)

/-- C2 counterexample: against a declared length of 10, a write of 10 bytes
at offset 0 fires the "upload complete" notification, and a second write of
10 bytes at offset 0 fires it AGAIN — the notification is not limited to
once per upload lifetime. -/
theorem write_complete_twice_counterexample :
    (write "d" fsLen10Full demoDigest "g" 0 (List.replicate 10 1)
        none).emittedComplete = true
    ∧ (write "d" (write "d" fsLen10Full demoDigest "g" 0
        (List.replicate 10 1) none).fs demoDigest "g" 0
        (List.replicate 10 2) none).emittedComplete = true := by
  constructor <;> rfl

/-- C2 (amended): the completion notification is purely a function of the
new offset and the stored declared length: a committed `write` emits
"upload complete" exactly when `parseInt(upload_length, 10)` of the
metadata record equals `startingOffset + bytesReceived` — on every such
write, not only the first; in particular writes of 4 then 6 bytes at
offsets 0 and 4 against declared length 10 notify exactly once, on the
second write. -/
theorem write_complete_iff (dir : String) (fs : FS)
    (sha1d : List Nat → String) (file_id : String) (offset : Nat)
    (body : List Nat) (cs : Option String) (old : List Nat) (f : File)
    (hv : checksumVerify sha1d body cs = none)
    (hd : fs (filePath dir file_id) = some (.data old))
    (hi : getFileInfo dir fs file_id = some f) :
    (write dir fs sha1d file_id offset body cs).emittedComplete = true ↔
      f.upload_length.bind jsParseInt10 = some (offset + body.length) := by
  have hneA : infoPath dir file_id ≠ filePath dir file_id ++ ".tmp" :=
    infoPath_ne_tempPath dir file_id
  have hneB : infoPath dir file_id ≠ filePath dir file_id :=
    infoPath_ne_filePath dir file_id
  have hneC : filePath dir file_id ≠ filePath dir file_id ++ ".tmp" :=
    Ne.symm (tempPath_ne_filePath dir file_id)
  have hd1 : (fs.set (filePath dir file_id ++ ".tmp") (.data body))
      (filePath dir file_id) = some (.data old) := by
    rw [FS.set_other fs _ _ _ hneC]
    exact hd
  have hi1 : getFileInfo dir
      (((fs.set (filePath dir file_id ++ ".tmp") (.data body)).set
        (filePath dir file_id) (.data (overwriteAt old offset body))).del
        (filePath dir file_id ++ ".tmp")) file_id = some f := by
    unfold getFileInfo
    rw [FS.del_other _ _ _ hneA, FS.set_other _ _ _ _ hneB,
      FS.set_other _ _ _ _ hneA]
    unfold getFileInfo at hi
    exact hi
  unfold write
  rw [hv]
  simp only
  rw [hd1]
  simp only [hi1]
  simp [decide_eq_true_eq]

/-- The initial state of the two-write scenario: an empty data artifact and
a metadata record declaring length 10. -/
def fsLen10start : FS :=
  (FS.empty.set (filePath "d" "f") (.data [])).set
    (infoPath "d" "f") (.info ⟨"f", some "10", none, none⟩)

theorem write_complete_iff_witness :
    (write "d" fsLen10start demoDigest "f" 0 (List.replicate 4 5)
        none).emittedComplete = false
    ∧ (write "d" fsLen10 demoDigest "f" 4 (List.replicate 6 9)
        none).emittedComplete = true := by
  constructor
  · have h1 := write_complete_iff "d" fsLen10start demoDigest "f" 0
      (List.replicate 4 5) none [] ⟨"f", some "10", none, none⟩ rfl rfl rfl
    have h2 : ¬((write "d" fsLen10start demoDigest "f" 0 (List.replicate 4 5)
        none).emittedComplete = true) := fun hc => absurd (h1.mp hc) (by decide)
    simpa using h2
  · exact (write_complete_iff "d" fsLen10 demoDigest "f" 4
      (List.replicate 6 9) none (List.replicate 4 5)
      ⟨"f", some "10", none, none⟩ rfl rfl rfl).mpr (by decide)

end FileStore
